import Mathlib

/-!
Shallow embedding of the sticky proxy manager
(`src/sticky_proxy_manager.py`, class `StickyProxyManager`) of the
Dealer_Bids repository, together with theorems settling the frozen claims
about its specification.

Network interaction is modelled by explicit oracles: each connectivity
test receives the list of per-service probe outcomes (a probe outcome is
`true` exactly when the service answered with status 200 and a stripped
body longer than 5 characters), and each location verification receives
the list of per-service geolocation responses.  Timestamps
(`datetime.now().isoformat()`) are passed in as strings.  All Python
exception paths of the embedded functions resolve to explicit values
(`none` / `false`), mirroring the blanket `except Exception` handlers of
the source.
-/

set_option maxRecDepth 100000

namespace StickyProxy

/-! ### MD5 (used by `hashlib.md5(str(account_id).encode()).hexdigest()`)

A direct implementation of MD5 over byte lists, with 32-bit words
represented as natural numbers reduced modulo `2 ^ 32`. -/

/-- UTF-8 encoding of one character, as a list of byte values. -/
def charUtf8 (c : Char) : List Nat :=
  let n := c.toNat
  if n < 128 then [n]
  else if n < 2048 then [192 + n / 64, 128 + n % 64]
  else if n < 65536 then [224 + n / 4096, 128 + (n / 64) % 64, 128 + n % 64]
  else [240 + n / 262144, 128 + (n / 4096) % 64, 128 + (n / 64) % 64, 128 + n % 64]

/-- UTF-8 encoding of a string (`str.encode()` in Python). -/
def utf8Bytes (s : String) : List Nat :=
  (s.toList.map charUtf8).foldr (· ++ ·) []

/-- MD5 round constants (floor of `abs(sin(i+1)) * 2^32`). -/
def md5K : List Nat :=
  [3614090360, 3905402710, 606105819, 3250441966, 4118548399, 1200080426,
   2821735955, 4249261313, 1770035416, 2336552879, 4294925233, 2304563134,
   1804603682, 4254626195, 2792965006, 1236535329, 4129170786, 3225465664,
   643717713, 3921069994, 3593408605, 38016083, 3634488961, 3889429448,
   568446438, 3275163606, 4107603335, 1163531501, 2850285829, 4243563512,
   1735328473, 2368359562, 4294588738, 2272392833, 1839030562, 4259657740,
   2763975236, 1272893353, 4139469664, 3200236656, 681279174, 3936430074,
   3572445317, 76029189, 3654602809, 3873151461, 530742520, 3299628645,
   4096336452, 1126891415, 2878612391, 4237533241, 1700485571, 2399980690,
   4293915773, 2240044497, 1873313359, 4264355552, 2734768916, 1309151649,
   4149444226, 3174756917, 718787259, 3951481745]

/-- MD5 per-round left-rotation amounts. -/
def md5S : List Nat :=
  [7, 12, 17, 22, 7, 12, 17, 22, 7, 12, 17, 22, 7, 12, 17, 22,
   5, 9, 14, 20, 5, 9, 14, 20, 5, 9, 14, 20, 5, 9, 14, 20,
   4, 11, 16, 23, 4, 11, 16, 23, 4, 11, 16, 23, 4, 11, 16, 23,
   6, 10, 15, 21, 6, 10, 15, 21, 6, 10, 15, 21, 6, 10, 15, 21]

/-- Left rotation of a 32-bit word (represented as a `Nat` below `2 ^ 32`). -/
def rotl32 (x n : Nat) : Nat :=
  (x * 2 ^ n + x / 2 ^ (32 - n)) % 4294967296

/-- Bitwise complement of a 32-bit word. -/
def not32 (x : Nat) : Nat := Nat.xor x 4294967295

/-- One MD5 round, transforming the state `(a, b, c, d)`. -/
def md5Mix (M : Nat → Nat) (st : Nat × Nat × Nat × Nat) (i : Nat) :
    Nat × Nat × Nat × Nat :=
  let a := st.1
  let b := st.2.1
  let c := st.2.2.1
  let d := st.2.2.2
  let fg : Nat × Nat :=
    if i < 16 then (Nat.lor (Nat.land b c) (Nat.land (not32 b) d), i)
    else if i < 32 then (Nat.lor (Nat.land d b) (Nat.land (not32 d) c), (5 * i + 1) % 16)
    else if i < 48 then (Nat.xor (Nat.xor b c) d, (3 * i + 5) % 16)
    else (Nat.xor c (Nat.lor b (not32 d)), (7 * i) % 16)
  let f2 := (fg.1 + a + md5K.getD i 0 + M fg.2) % 4294967296
  (d, (b + rotl32 f2 (md5S.getD i 0)) % 4294967296, b, c)

/-- Little-endian 32-bit word `g` of a 64-byte block. -/
def md5Word (block : List Nat) (g : Nat) : Nat :=
  block.getD (4 * g) 0 + 256 * block.getD (4 * g + 1) 0 +
    65536 * block.getD (4 * g + 2) 0 + 16777216 * block.getD (4 * g + 3) 0

/-- Process one 64-byte block, updating the running MD5 state. -/
def md5Block (st : Nat × Nat × Nat × Nat) (block : List Nat) :
    Nat × Nat × Nat × Nat :=
  let r := (List.range 64).foldl (md5Mix (md5Word block)) st
  ((st.1 + r.1) % 4294967296, (st.2.1 + r.2.1) % 4294967296,
   (st.2.2.1 + r.2.2.1) % 4294967296, (st.2.2.2 + r.2.2.2) % 4294967296)

/-- The 8-byte little-endian encoding of a (64-bit) length value. -/
def le8 (n : Nat) : List Nat :=
  (List.range 8).map fun i => (n / 2 ^ (8 * i)) % 256

/-- MD5 padding: `0x80`, zeros to 56 mod 64, then the 64-bit bit length. -/
def md5Pad (msg : List Nat) : List Nat :=
  let z := (119 - msg.length % 64) % 64
  msg ++ [128] ++ List.replicate z 0 ++ le8 ((8 * msg.length) % 2 ^ 64)

/-- Split a byte list into 64-byte chunks (fuel-based structural recursion;
the fuel `l.length` always suffices because each step drops 64 bytes). -/
def chunks64Aux : Nat → List Nat → List (List Nat)
  | 0, _ => []
  | fuel + 1, l =>
    if l.length = 0 then [] else l.take 64 :: chunks64Aux fuel (l.drop 64)

/-- Split a byte list into 64-byte chunks. -/
def chunks64 (l : List Nat) : List (List Nat) := chunks64Aux l.length l

/-- One lowercase hexadecimal digit. -/
def hexDigit (n : Nat) : Char :=
  Char.ofNat (if n < 10 then 48 + n else 87 + n)

/-- Two lowercase hex digits of one byte. -/
def hexByte (n : Nat) : List Char := [hexDigit (n / 16), hexDigit (n % 16)]

/-- Hex rendering of one 32-bit word, little-endian byte order. -/
def wordHex (w : Nat) : List Char :=
  hexByte (w % 256) ++ hexByte (w / 256 % 256) ++ hexByte (w / 65536 % 256) ++
    hexByte (w / 16777216 % 256)

/-- `hashlib.md5(s.encode()).hexdigest()`. -/
def md5hex (s : String) : String :=
  let blocks := chunks64 (md5Pad (utf8Bytes s))
  let r := blocks.foldl md5Block (1732584193, 4023233417, 2562383102, 271733878)
  String.mk (wordHex r.1 ++ wordHex r.2.1 ++ wordHex r.2.2.1 ++ wordHex r.2.2.2)

/-! ### Python helpers used by the source -/

/-- Digit-sequence part of Python `int(...)` parsing (ASCII): digits with
single underscores allowed between digits.  The boolean argument records
whether the previous character was a digit (so the string must start and
end with a digit and underscores may not repeat). -/
def pyDigitsAux : List Char → Nat → Bool → Option Nat
  | [], acc, prevDigit => if prevDigit then some acc else none
  | c :: rest, acc, prevDigit =>
    if c.isDigit then pyDigitsAux rest (acc * 10 + (c.toNat - 48)) true
    else if c = Char.ofNat 95 && prevDigit then pyDigitsAux rest acc false
    else none

/-- Strip leading and trailing whitespace from a character list
(the stripping `int(...)` performs). -/
def pyStrip (cs : List Char) : List Char :=
  ((cs.dropWhile Char.isWhitespace).reverse.dropWhile Char.isWhitespace).reverse

/-- Python `int(s)` for ASCII strings: surrounding whitespace stripped,
optional sign, then a digit sequence (underscore separators allowed).
Returns `none` when Python would raise `ValueError`. -/
def pyInt (s : String) : Option Int :=
  match pyStrip s.toList with
  | '+' :: rest => (pyDigitsAux rest 0 false).map Int.ofNat
  | '-' :: rest => (pyDigitsAux rest 0 false).map fun n => -(n : Int)
  | cs => (pyDigitsAux cs 0 false).map Int.ofNat

/-- Python `str.title()` for ASCII strings: the first letter of each
alphabetic run is uppercased, the rest lowercased. -/
def pyTitleAux : List Char → Bool → List Char
  | [], _ => []
  | c :: rest, prevAlpha =>
    (if c.isAlpha then (if prevAlpha then c.toLower else c.toUpper) else c) ::
      pyTitleAux rest c.isAlpha

/-- Python `str.title()` (ASCII model). -/
def pyTitle (s : String) : String := String.mk (pyTitleAux s.toList false)

/-- Python substring test `needle in hay` on character lists. -/
def listInfix (n : List Char) : List Char → Bool
  | [] => n.isEmpty
  | c :: t => n.isPrefixOf (c :: t) || listInfix n t

/-- Python `needle in hay` on strings. -/
def strContains (hay needle : String) : Bool :=
  listInfix needle.toList hay.toList

/-! ### Data model -/

/-- One entry of `self.reliable_cities`: a (city, region) target. -/
structure Location where
  city : String
  region : String
deriving DecidableEq

/-- The SOAX credential attributes read from the config object.
`SOAX_ENDPOINT` is an `Option` because the source reads it with
`getattr(self.config, "SOAX_ENDPOINT", "proxy.soax.com:5000")`;
`SOAX_USERNAME` and `SOAX_PASSWORD` are read directly and tested for
truthiness, so the missing/`None`/empty cases are all modelled as `""`. -/
structure SoaxConfig where
  SOAX_USERNAME : String
  SOAX_PASSWORD : String
  SOAX_ENDPOINT : Option String
deriving DecidableEq

/-- The proxy dictionary built in `create_sticky_proxy_for_account_fixed`.
The seven `verified_*`/`note`/`verification_service` fields are `Option`s
because they are added only by a later `proxy.update(...)`; `endpoint` is
an `Option` because a stored dictionary lacking the key makes
`proxy["endpoint"]` raise `KeyError` (a case distinct from an empty
string). -/
structure Proxy where
  ptype : String
  endpoint : Option String
  username : String
  password : String
  geo_country : String
  geo_region : String
  geo_city : String
  session_id : String
  account_id : String
  is_sticky : Bool
  created_at : String
  config_used : String
  verified_ip : Option String
  verified_country : Option String
  verified_region : Option String
  verified_city : Option String
  us_verified : Option Bool
  verification_service : Option String
  note : Option String
deriving DecidableEq

/-- One entry of a per-account `location_history` list. -/
structure UsageRecord where
  timestamp : String
  city : String
  region : String
  ip : String
  session_id : String
  config_used : String
deriving DecidableEq

/-- The manager state persisted in `proxy_assignments.json` and
`location_history.json`, as insertion-ordered association lists (the
JSON objects keyed by the account id string). -/
structure MgrState where
  assignments : List (String × Proxy)
  history : List (String × List UsageRecord)
deriving DecidableEq

/-- The state with no assignments and no history. -/
def emptyState : MgrState := ⟨[], []⟩

/-- Replace-or-append update of an association list, mirroring Python
dictionary assignment `d[k] = v`. -/
def insertA {α : Type} (l : List (String × α)) (k : String) (v : α) :
    List (String × α) :=
  match l with
  | [] => [(k, v)]
  | (k', v') :: rest =>
    if k' = k then (k, v) :: rest else (k', v') :: insertA rest k v

/-- Outcome of one geolocation service call in
`verify_proxy_location_robust`: unreachable (timeout or transport
exception), a non-200 status, a 200 response whose JSON does not parse,
or a parsed response carrying the normalized ip/country/region/city
fields extracted by the service parser. -/
inductive GeoResp where
  | unreachable : GeoResp
  | badStatus : Nat → GeoResp
  | malformed : GeoResp
  | ok : String → String → String → String → GeoResp
deriving DecidableEq

/-- The observation data carried by a successful verification result
(keys `ip`, `country`, `region`, `city`, `service` of the returned
dictionary). -/
structure GeoData where
  ip : String
  country : String
  region : String
  city : String
  service : String
deriving DecidableEq

/-- Return value of `verify_proxy_location_robust`: the `verified` flag,
the observation keys (present exactly on the success dictionary), and
the `error` key (present exactly on the failure dictionaries). -/
structure VerifResult where
  verified : Bool
  data : Option GeoData
  error : Option String
deriving DecidableEq

/-- Risk levels of `get_account_location_report`. -/
inductive Risk where
  | LOW : Risk
  | MEDIUM : Risk
  | HIGH : Risk
deriving DecidableEq

/-- Return value of `get_account_location_report`: either the error
dictionary or the report with total logins, distinct-location count and
consistency risk. -/
inductive ReportResult where
  | err : String → ReportResult
  | ok : Nat → Nat → Risk → ReportResult
deriving DecidableEq

/-- `self.reliable_cities` as initialized in `__init__`. -/
def reliable_cities : List Location :=
  [⟨"phoenix", "arizona"⟩, ⟨"scottsdale", "arizona"⟩, ⟨"tempe", "arizona"⟩,
   ⟨"mesa", "arizona"⟩, ⟨"losangeles", "california"⟩,
   ⟨"sandiego", "california"⟩, ⟨"miami", "florida"⟩, ⟨"orlando", "florida"⟩,
   ⟨"chicago", "illinois"⟩, ⟨"newyork", "newyork"⟩]

/-! ### Connectivity probing (`test_proxy_connectivity_robust`) -/

/-- The probe loop of `test_proxy_connectivity_robust`: walk the service
outcomes keeping a success counter; as soon as the counter reaches 2,
return `true` early; after the loop, return `true` exactly when at least
one probe succeeded (`successful_tests >= 1`), else `false`. -/
def connQuorumLoop : List Bool → Nat → Bool
  | [], succ => decide (1 ≤ succ)
  | o :: rest, succ =>
    let s := if o then succ + 1 else succ
    if 2 ≤ s then true else connQuorumLoop rest s

/-- `test_proxy_connectivity_robust(proxy)`.  `outcomes` is the list of
per-service probe outcomes (one per entry of `test_services`; `true`
means status 200 with a body longer than 5 stripped characters).  A
missing or empty username or password returns `false` immediately
(the "Invalid proxy configuration" branch); a missing endpoint raises
`KeyError` at the URL construction, which the enclosing handler turns
into `false` before any probe is issued. -/
def test_proxy_connectivity_robust (p : Proxy) (outcomes : List Bool) : Bool :=
  if p.username = "" || p.password = "" then false
  else
    match p.endpoint with
    | none => false
    | some _ => connQuorumLoop outcomes 0

/-! ### Location verification (`verify_proxy_location_robust`) -/

/-- The US indicator tokens checked against `str(country).upper()`. -/
def usIndicators : List String := ["US", "USA", "UNITED STATES", "AMERICA"]

/-- Python `str.upper()` (ASCII model). -/
def pyUpper (s : String) : String := String.mk (s.toList.map Char.toUpper)

/-- `any(indicator in str(country).upper() for indicator in us_indicators)`. -/
def usBased (country : String) : Bool :=
  usIndicators.any fun ind => strContains (pyUpper country) ind

/-- Names of the entries of `location_services`, in order. -/
def locationServiceNames : List String := ["IP-API", "IPapi.co", "FreeGeoIP"]

/-- The service loop of `verify_proxy_location_robust`: the first parsed
response whose country matches a US indicator wins; every other outcome
(unreachable, bad status, malformed JSON, non-US observation) falls
through to the next service; when the loop ends, the fixed failure
dictionary is returned. -/
def verifyLoop : List (String × GeoResp) → VerifResult
  | [] => ⟨false, none, some "All location services failed"⟩
  | (name, GeoResp.ok ip country region city) :: rest =>
    if usBased country then ⟨true, some ⟨ip, country, region, city, name⟩, none⟩
    else verifyLoop rest
  | (_, _) :: rest => verifyLoop rest

/-- `verify_proxy_location_robust(proxy)` with the geolocation responses
given by `resps` (one per entry of `location_services`). -/
def verify_proxy_location_robust (p : Proxy) (resps : List GeoResp) :
    VerifResult :=
  if p.username = "" || p.password = "" then ⟨false, none, some "Invalid proxy"⟩
  else
    match p.endpoint with
    | none => ⟨false, none, some "KeyError: endpoint"⟩
    | some _ => verifyLoop (locationServiceNames.zip resps)

/-! ### Candidate derivation and lease creation
(`create_sticky_proxy_for_account_fixed`) -/

/-- `validate_soax_credentials`: both credential attributes must be
present and truthy. -/
def validate_soax_credentials (cfg : SoaxConfig) : Bool :=
  !(cfg.SOAX_USERNAME = "") && !(cfg.SOAX_PASSWORD = "")

/-- The deterministic per-account session id:
`f"sticky_{hashlib.md5(str(account_id).encode()).hexdigest()[:8]}_{account_id}"`. -/
def deriveSessionId (account_id : String) : String :=
  "sticky_" ++ (md5hex account_id).take 8 ++ "_" ++ account_id

/-- The primary (city, region) target:
`self.reliable_cities[int(account_id) % len(self.reliable_cities)]`.
`none` models the `ValueError` of `int(...)` on a non-numeric id (and
the `ZeroDivisionError` on an empty pool), both caught by the enclosing
handler of `create_sticky_proxy_for_account_fixed`. -/
def selectLocation (pool : List Location) (account_id : String) :
    Option Location :=
  match pyInt account_id with
  | none => none
  | some n =>
    if pool.length = 0 then none
    else some (pool.getD (n.emod pool.length).toNat ⟨"", ""⟩)

/-- The Tier-1 ("Full SOAX format") username. -/
def tier1Username (loc : Location) (sid : String) : String :=
  "package-309866-country-us-region-" ++ loc.region ++ "-city-" ++ loc.city ++
    "-sessionid-" ++ sid

/-- The Tier-2 ("Generic US format") username. -/
def tier2Username (sid : String) : String :=
  "package-309866-country-us-sessionid-" ++ sid

/-- The proxy dictionary constructed for one configuration attempt. -/
def mkProxy (cfg : SoaxConfig) (loc : Location)
    (sid account_id now username desc : String) : Proxy :=
  { ptype := "soax"
    endpoint := some (cfg.SOAX_ENDPOINT.getD "proxy.soax.com:5000")
    username := username
    password := cfg.SOAX_PASSWORD
    geo_country := "United States"
    geo_region := pyTitle loc.region
    geo_city := pyTitle loc.city
    session_id := sid
    account_id := account_id
    is_sticky := true
    created_at := now
    config_used := desc
    verified_ip := none
    verified_country := none
    verified_region := none
    verified_city := none
    us_verified := none
    verification_service := none
    note := none }

/-- The `proxy.update(...)` applied after a successful connectivity test:
on `verified` the observation data is copied in (`region` and `service`
read with defaults that never fire because the success dictionary always
carries them); otherwise the originally assigned location is kept with
`us_verified = False` and an explanatory note.  The `none` case models a
`KeyError` on a `verified` result lacking its data keys, which the
per-configuration handler would turn into `continue`; the verifier
defined above never produces it. -/
def applyVerification (p : Proxy) (v : VerifResult) (loc : Location) :
    Option Proxy :=
  if v.verified then
    match v.data with
    | some d =>
      some { p with
        verified_ip := some d.ip
        verified_country := some d.country
        verified_region := some d.region
        verified_city := some d.city
        us_verified := some true
        verification_service := some d.service }
    | none => none
  else
    some { p with
      verified_ip := some "Unknown"
      verified_country := some "US (Assigned)"
      verified_region := some (pyTitle loc.region)
      verified_city := some (pyTitle loc.city)
      us_verified := some false
      note := some "Working proxy but location verification failed" }

/-- One iteration of the `for config in proxy_configs` loop: build the
proxy for this configuration, test connectivity with this attempt's
probe outcomes, and on success apply the location verification. -/
def tryProxyConfig (cfg : SoaxConfig) (loc : Location)
    (sid account_id now username desc : String)
    (conn : List Bool) (geo : List GeoResp) : Option Proxy :=
  let p := mkProxy cfg loc sid account_id now username desc
  if test_proxy_connectivity_robust p conn then
    applyVerification p (verify_proxy_location_robust p geo) loc
  else none

/-- `create_sticky_proxy_for_account_fixed(account_id)`.  `connO i` and
`geoO i` are the probe outcomes seen by configuration attempt `i`
(0 = Full SOAX format, 1 = Generic US format, 2 = Original config
username); `now` is `datetime.now().isoformat()`. -/
def create_sticky_proxy_for_account_fixed (cfg : SoaxConfig)
    (pool : List Location) (account_id : String)
    (connO : Nat → List Bool) (geoO : Nat → List GeoResp) (now : String) :
    Option Proxy :=
  if !(validate_soax_credentials cfg) then none
  else
    let sid := deriveSessionId account_id
    match selectLocation pool account_id with
    | none => none
    | some loc =>
      match tryProxyConfig cfg loc sid account_id now
          (tier1Username loc sid) "Full SOAX format" (connO 0) (geoO 0) with
      | some p => some p
      | none =>
        match tryProxyConfig cfg loc sid account_id now
            (tier2Username sid) "Generic US format" (connO 1) (geoO 1) with
        | some p => some p
        | none =>
          tryProxyConfig cfg loc sid account_id now
            cfg.SOAX_USERNAME "Original config username" (connO 2) (geoO 2)

/-! ### Usage ledger (`log_location_usage`) and consistency analysis -/

/-- The usage record built in `log_location_usage` (the `verified_*`
keys are read with default `"Unknown"`). -/
def mkUsageRecord (p : Proxy) (now : String) : UsageRecord :=
  { timestamp := now
    city := p.verified_city.getD "Unknown"
    region := p.verified_region.getD "Unknown"
    ip := p.verified_ip.getD "Unknown"
    session_id := p.session_id
    config_used := p.config_used }

/-- Append one record and keep only the last 50
(`self.location_history[key] = self.location_history[key][-50:]` when
the length exceeds 50). -/
def ledgerPush (h : List UsageRecord) (r : UsageRecord) : List UsageRecord :=
  let h2 := h ++ [r]
  if 50 < h2.length then h2.drop (h2.length - 50) else h2

/-- The per-tenant history list (missing key reads as the fresh empty
list installed by `log_location_usage`). -/
def histOf (st : MgrState) (t : String) : List UsageRecord :=
  (st.history.lookup t).getD []

/-- `log_location_usage(account_id, proxy)`: append the usage record to
the account's history, evict beyond 50, and persist.  The trailing
`check_location_consistency` call only logs and does not change state. -/
def log_location_usage (st : MgrState) (t : String) (p : Proxy)
    (now : String) : MgrState :=
  { st with history := insertA st.history t (ledgerPush (histOf st t) (mkUsageRecord p now)) }

/-- The `f"{record['city']}, {record['region']}"` key used by both
`check_location_consistency` and `get_account_location_report`. -/
def locKey (r : UsageRecord) : String := r.city ++ ", " ++ r.region

/-- Number of distinct location keys among the last five records
(`set` over `history[-5:]` in `check_location_consistency`). -/
def recentDistinctLocations (hist : List UsageRecord) : Nat :=
  (((hist.drop (hist.length - 5)).map locKey).dedup).length

/-- One step of the grouping loop of `get_account_location_report`:
append the timestamp under the record's location key, adding the key at
the end when it is new (Python dict insertion order). -/
def addTimestamp (locs : List (String × List String)) (k ts : String) :
    List (String × List String) :=
  match locs with
  | [] => [(k, [ts])]
  | (k', l) :: rest =>
    if k' = k then (k', l ++ [ts]) :: rest
    else (k', l) :: addTimestamp rest k ts

/-- The `locations` dictionary of `get_account_location_report`, built
over the full history. -/
def collectLocations (hist : List UsageRecord) : List (String × List String) :=
  hist.foldl (fun locs r => addTimestamp locs (locKey r) r.timestamp) []

/-- `get_account_location_report(account_id)`: the error dictionary when
the account has no history, else total logins, the number of distinct
locations over the whole history, and the risk
(`HIGH` if more than 2, `LOW` if exactly 1, else `MEDIUM`). -/
def get_account_location_report (st : MgrState) (t : String) : ReportResult :=
  match st.history.lookup t with
  | none => ReportResult.err "No location history found"
  | some hist =>
    let locs := collectLocations hist
    ReportResult.ok hist.length locs.length
      (if 2 < locs.length then Risk.HIGH
       else if locs.length = 1 then Risk.LOW else Risk.MEDIUM)

/-- The risk component of a report, when present. -/
def riskOfReport : ReportResult → Option Risk
  | ReportResult.err _ => none
  | ReportResult.ok _ _ r => some r

/-! ### The lease entry point (`get_consistent_proxy_for_account`) -/

/-- The new-assignment branch: create a sticky proxy; on success store
it under the account key, persist, and log the initial usage; on
failure return `None` leaving the state untouched. -/
def assignNewProxy (cfg : SoaxConfig) (st : MgrState) (t : String)
    (connO : Nat → List Bool) (geoO : Nat → List GeoResp) (now : String) :
    Option Proxy × MgrState :=
  match create_sticky_proxy_for_account_fixed cfg reliable_cities t connO geoO now with
  | some np =>
    (some np,
     log_location_usage { st with assignments := insertA st.assignments t np } t np now)
  | none => (none, st)

/-- `get_consistent_proxy_for_account(account_id)`: return the stored
assignment when it still passes the connectivity test (logging the
usage), otherwise fall through to creating and storing a new sticky
proxy.  `existConn` is the list of probe outcomes seen by the
connectivity test of the stored assignment; `connO`/`geoO` are the probe
outcomes of the creation attempts. -/
def get_consistent_proxy_for_account (cfg : SoaxConfig) (st : MgrState)
    (t : String) (existConn : List Bool) (connO : Nat → List Bool)
    (geoO : Nat → List GeoResp) (now : String) : Option Proxy × MgrState :=
  match st.assignments.lookup t with
  | some assigned =>
    if test_proxy_connectivity_robust assigned existConn then
      (some assigned, log_location_usage st t assigned now)
    else assignNewProxy cfg st t connO geoO now
  | none => assignNewProxy cfg st t connO geoO now

/-! ### Derived predicates used in theorem statements -/

/-- The configuration-completeness precondition of the connectivity
test: non-empty username and password and a present endpoint key. -/
def proxyConfigComplete (p : Proxy) : Bool :=
  !(p.username == "") && !(p.password == "") && p.endpoint.isSome

/-- `true` when a geolocation response is not a parsed observation
satisfying the US predicate (so the verifier loop skips it). -/
def geoRespNonUS : GeoResp → Bool
  | GeoResp.ok _ c _ _ => !usBased c
  | _ => true

/-- The last fifty elements of a list. -/
def lastFifty {α : Type} (l : List α) : List α := l.drop (l.length - 50)

/-- The state after a sequence of usage-logging calls
`(tenant, proxy, timestamp)` starting from the empty state. -/
def runUsageLog (calls : List (String × Proxy × String)) : MgrState :=
  calls.foldl (fun s c => log_location_usage s c.1 c.2.1 c.2.2) emptyState

/-- The usage records a given tenant's calls would append, in call
order. -/
def tenantRecords (calls : List (String × Proxy × String)) (t : String) :
    List UsageRecord :=
  (calls.filter fun c => c.1 == t).map fun c => mkUsageRecord c.2.1 c.2.2

/-! ### Concrete instances used by witnesses and counterexamples -/

/-- A well-formed credential configuration. -/
def cfgW : SoaxConfig := ⟨"baseuser", "basepw", some "proxy.soax.com:5000"⟩

/-- A configuration whose `SOAX_USERNAME` is missing/empty. -/
def cfgBadW : SoaxConfig := ⟨"", "basepw", some "proxy.soax.com:5000"⟩

/-- Probe outcomes: every service fails for every attempt. -/
def allFailConn : Nat → List Bool := fun _ => [false, false, false, false]

/-- Probe outcomes: exactly one of the four services passes. -/
def oneProbeConn : Nat → List Bool := fun _ => [true, false, false, false]

/-- Probe outcomes: two of the four services pass. -/
def twoProbeConn : Nat → List Bool := fun _ => [true, true, false, false]

/-- Geolocation responses: no service reachable. -/
def geoNone : Nat → List GeoResp :=
  fun _ => [GeoResp.unreachable, GeoResp.unreachable, GeoResp.unreachable]

/-- Geolocation responses: the first service observes a US address. -/
def geoUS : Nat → List GeoResp :=
  fun _ => [GeoResp.ok "23.113.5.9" "United States" "Arizona" "Tempe",
    GeoResp.unreachable, GeoResp.unreachable]

/-- A placeholder proxy used only as a `getD` default. -/
def defaultProxy : Proxy := mkProxy cfgW ⟨"", ""⟩ "" "" "" "" ""

/-- First creation run for account 42 (verified, its own clock). -/
def proxyRun1 : Proxy :=
  (create_sticky_proxy_for_account_fixed cfgW reliable_cities "42"
    twoProbeConn geoUS "2024-01-01T10:00:00").getD defaultProxy

/-- Second creation run for account 42 (different probe outcomes,
failed verification, different clock): a fresh process instance. -/
def proxyRun2 : Proxy :=
  (create_sticky_proxy_for_account_fixed cfgW reliable_cities "42"
    oneProbeConn geoNone "2024-02-02T20:00:00").getD defaultProxy

/-- A stored lease for account 5. -/
def oldProxy5 : Proxy :=
  (create_sticky_proxy_for_account_fixed cfgW reliable_cities "5"
    twoProbeConn geoUS "2024-01-01T00:00:00").getD defaultProxy

/-- A state in which account 5 holds the stored lease `oldProxy5`. -/
def stWith5 : MgrState := ⟨[("5", oldProxy5)], []⟩

/-- A replacement lease for account 5 created at a later time. -/
def newProxy5 : Proxy :=
  (create_sticky_proxy_for_account_fixed cfgW reliable_cities "5"
    oneProbeConn geoNone "2024-03-03T00:00:00").getD defaultProxy

/-- A structurally valid proxy configuration. -/
def validSampleProxy : Proxy :=
  mkProxy cfgW ⟨"phoenix", "arizona"⟩ "sid1" "7" "2024-01-01T00:00:00"
    "someuser" "Full SOAX format"

/-- The same configuration with the endpoint key missing. -/
def noEndpointProxy : Proxy := { validSampleProxy with endpoint := none }

/-- A usage record at Phoenix, Arizona. -/
def recPhoenix : UsageRecord :=
  ⟨"2024-01-01T00:00:00", "Phoenix", "Arizona", "23.1.1.1", "sidA", "Full SOAX format"⟩

/-- A usage record at Miami, Florida. -/
def recMiami : UsageRecord :=
  ⟨"2024-01-02T00:00:00", "Miami", "Florida", "23.2.2.2", "sidA", "Full SOAX format"⟩

/-- Six records whose last five share one location while the full
history has two distinct locations. -/
def hist6 : List UsageRecord :=
  [recPhoenix, recMiami, recMiami, recMiami, recMiami, recMiami]

/-- A state in which account 9 carries `hist6`. -/
def stHist6 : MgrState := ⟨[], [("9", hist6)]⟩

/-! ### Helper lemmas -/

/-- Cross-check of the MD5 implementation against a reference digest. -/
theorem md5hex_reference_check :
    md5hex "42" = "a1d0c6e83f027327d8461063f4ac58a6" := by rfl

/-- The probe loop accepts exactly when the counter is already positive
or some remaining probe passes. -/
theorem connQuorumLoop_eq (os : List Bool) :
    ∀ s : Nat, connQuorumLoop os s = (decide (1 ≤ s) || os.any id) := by
  induction os with
  | nil => intro s; simp [connQuorumLoop]
  | cons o rest ih =>
    intro s
    cases o with
    | true =>
      simp only [connQuorumLoop]
      by_cases h : 2 ≤ s + 1
      · have h1 : 1 ≤ s := by omega
        simp [h, h1]
      · have h0 : s = 0 := by omega
        subst h0
        simp [h, ih 1]
    | false =>
      simp only [connQuorumLoop]
      by_cases h : 2 ≤ s
      · have h1 : 1 ≤ s := by omega
        simp [h, h1]
      · simp [h, ih s]

/-- `test_proxy_connectivity_robust` succeeds exactly when the
configuration is complete and at least one probe passes. -/
theorem test_robust_eq (p : Proxy) (os : List Bool) :
    test_proxy_connectivity_robust p os = (proxyConfigComplete p && os.any id) := by
  unfold test_proxy_connectivity_robust proxyConfigComplete
  by_cases h1 : p.username = "" <;> by_cases h2 : p.password = "" <;>
    cases hE : p.endpoint <;> simp [h1, h2, hE, connQuorumLoop_eq]

/-- Looking up the key just written by `insertA` yields the new value. -/
theorem lookup_insertA_self {α : Type} (l : List (String × α)) (k : String)
    (v : α) : (insertA l k v).lookup k = some v := by
  induction l with
  | nil => simp [insertA, List.lookup]
  | cons hd tl ih =>
    obtain ⟨k', v'⟩ := hd
    by_cases h : k' = k
    · subst h; simp [insertA, List.lookup]
    · simp only [insertA, if_neg h, List.lookup]
      have hne : (k == k') = false := by
        simp [Ne.symm h]
      simp [hne, ih]

/-- Logging usage rewrites the account's own ledger with one push. -/
theorem histOf_log (st : MgrState) (t : String) (p : Proxy) (now : String) :
    histOf (log_location_usage st t p now) t =
      ledgerPush (histOf st t) (mkUsageRecord p now) := by
  simp [log_location_usage, histOf, lookup_insertA_self]

/-- Logging usage does not touch the assignments map. -/
theorem log_assignments (st : MgrState) (t : String) (p : Proxy)
    (now : String) : (log_location_usage st t p now).assignments = st.assignments := rfl

/-- Creation fails when the credentials do not validate. -/
theorem create_none_of_invalid_creds (cfg : SoaxConfig) (pool : List Location)
    (t : String) (connO : Nat → List Bool) (geoO : Nat → List GeoResp)
    (now : String) (h : validate_soax_credentials cfg = false) :
    create_sticky_proxy_for_account_fixed cfg pool t connO geoO now = none := by
  unfold create_sticky_proxy_for_account_fixed
  simp [h]

/-- Creation fails when every probe of every attempt fails. -/
theorem create_none_of_all_fail (cfg : SoaxConfig) (pool : List Location)
    (t : String) (connO : Nat → List Bool) (geoO : Nat → List GeoResp)
    (now : String) (hfail : ∀ i, (connO i).any id = false) :
    create_sticky_proxy_for_account_fixed cfg pool t connO geoO now = none := by
  unfold create_sticky_proxy_for_account_fixed
  by_cases hv : validate_soax_credentials cfg
  · cases hsel : selectLocation pool t with
    | none => simp [hv, hsel]
    | some loc =>
      have ht : ∀ i u d, tryProxyConfig cfg loc (deriveSessionId t) t now u d
          (connO i) (geoO i) = none := by
        intro i u d
        unfold tryProxyConfig
        simp [test_robust_eq, hfail i]
      simp [hv, hsel, ht 0, ht 1, ht 2]
  · simp [eq_false_of_ne_true hv]

/-- Creation fails when the account id does not parse as an integer. -/
theorem create_none_of_parse_fail (cfg : SoaxConfig) (pool : List Location)
    (t : String) (connO : Nat → List Bool) (geoO : Nat → List GeoResp)
    (now : String) (hparse : pyInt t = none) :
    create_sticky_proxy_for_account_fixed cfg pool t connO geoO now = none := by
  unfold create_sticky_proxy_for_account_fixed
  have hsel : selectLocation pool t = none := by simp [selectLocation, hparse]
  by_cases hv : validate_soax_credentials cfg
  · simp [hv, hsel]
  · simp [eq_false_of_ne_true hv]

/-- The proxy returned by one configuration attempt carries the session
id, titled target location, username and description of that attempt. -/
theorem tryProxyConfig_some_fields (cfg : SoaxConfig) (loc : Location)
    (sid aid now u desc : String) (conn : List Bool) (geo : List GeoResp)
    (p : Proxy) (h : tryProxyConfig cfg loc sid aid now u desc conn geo = some p) :
    p.session_id = sid ∧ p.geo_city = pyTitle loc.city ∧
      p.geo_region = pyTitle loc.region ∧ p.username = u ∧
      p.config_used = desc := by
  simp only [tryProxyConfig] at h
  split at h
  · unfold applyVerification at h
    split at h
    · split at h
      · injection h with h'
        subst h'
        simp [mkProxy]
      · exact absurd h (by simp)
    · injection h with h'
      subst h'
      simp [mkProxy]
  · exact absurd h (by simp)

/-- A successfully created sticky proxy embeds the deterministic
per-account session id, the deterministically selected target location,
and (when the Tier-1 configuration was the one that succeeded) the
Tier-1 username built from them. -/
theorem create_some_fields (cfg : SoaxConfig) (pool : List Location)
    (t : String) (connO : Nat → List Bool) (geoO : Nat → List GeoResp)
    (now : String) (p : Proxy)
    (h : create_sticky_proxy_for_account_fixed cfg pool t connO geoO now = some p) :
    p.session_id = deriveSessionId t ∧
      ∃ loc, selectLocation pool t = some loc ∧
        p.geo_city = pyTitle loc.city ∧ p.geo_region = pyTitle loc.region ∧
        (p.config_used = "Full SOAX format" →
          p.username = tier1Username loc (deriveSessionId t)) := by
  simp only [create_sticky_proxy_for_account_fixed] at h
  split at h
  · exact absurd h (by simp)
  · split at h
    · exact absurd h (by simp)
    · rename_i loc hsel
      split at h
      · rename_i p1 h1
        injection h with h'
        subst h'
        obtain ⟨hs, hc, hr, hu, hd⟩ := tryProxyConfig_some_fields _ _ _ _ _ _ _ _ _ _ h1
        exact ⟨hs, loc, hsel, hc, hr, fun _ => by rw [hu]⟩
      · split at h
        · rename_i p2 h2
          injection h with h'
          subst h'
          obtain ⟨hs, hc, hr, hu, hd⟩ := tryProxyConfig_some_fields _ _ _ _ _ _ _ _ _ _ h2
          refine ⟨hs, loc, hsel, hc, hr, fun hfull => ?_⟩
          rw [hd] at hfull
          exact absurd hfull (by decide)
        · obtain ⟨hs, hc, hr, hu, hd⟩ := tryProxyConfig_some_fields _ _ _ _ _ _ _ _ _ _ h
          refine ⟨hs, loc, hsel, hc, hr, fun hfull => ?_⟩
          rw [hd] at hfull
          exact absurd hfull (by decide)

/-! ### Claim theorems -/

/-- C1: candidate derivation is deterministic.  Two lease-creation runs
for the same tenant id over the same candidate pool — with arbitrary and
possibly different credential configurations, probe outcomes,
geolocation responses and clock readings, modelling repeated calls
within one process as well as calls in distinct process instances —
embed the identical per-tenant session id and the identical selected
(city, region) target in the resulting lease, and when both runs commit
the Tier-1 configuration they embed the identical Tier-1 username.  The
derivation uses only `hashlib.md5` and `int(...) % len(pool)`, both pure
in the tenant id and the pool contents. -/
theorem create_derivation_deterministic (cfg1 cfg2 : SoaxConfig)
    (pool : List Location) (t : String)
    (connO1 connO2 : Nat → List Bool) (geoO1 geoO2 : Nat → List GeoResp)
    (now1 now2 : String) (p1 p2 : Proxy)
    (h1 : create_sticky_proxy_for_account_fixed cfg1 pool t connO1 geoO1 now1 = some p1)
    (h2 : create_sticky_proxy_for_account_fixed cfg2 pool t connO2 geoO2 now2 = some p2) :
    p1.session_id = p2.session_id ∧ p1.geo_city = p2.geo_city ∧
      p1.geo_region = p2.geo_region ∧
      (p1.config_used = "Full SOAX format" →
        p2.config_used = "Full SOAX format" → p1.username = p2.username) := by
  obtain ⟨hs1, loc1, hsel1, hc1, hr1, hu1⟩ :=
    create_some_fields _ _ _ _ _ _ _ h1
  obtain ⟨hs2, loc2, hsel2, hc2, hr2, hu2⟩ :=
    create_some_fields _ _ _ _ _ _ _ h2
  have hloc : loc1 = loc2 := by
    have := hsel1.symm.trans hsel2
    exact Option.some.inj this
  subst hloc
  refine ⟨hs1.trans hs2.symm, hc1.trans hc2.symm, hr1.trans hr2.symm, ?_⟩
  intro hf1 hf2
  rw [hu1 hf1, hu2 hf2]

/-- C1 witness: two concrete creation runs for account 42 in different
modelled processes (different probe outcomes, verification outcomes and
timestamps) agree on the derived session id and target. -/
theorem create_derivation_deterministic_witness :
    proxyRun1.session_id = proxyRun2.session_id ∧
      proxyRun1.geo_city = proxyRun2.geo_city ∧
      proxyRun1.geo_region = proxyRun2.geo_region ∧
      (proxyRun1.config_used = "Full SOAX format" →
        proxyRun2.config_used = "Full SOAX format" →
        proxyRun1.username = proxyRun2.username) :=
  create_derivation_deterministic cfgW cfgW reliable_cities "42"
    twoProbeConn oneProbeConn geoUS geoNone
    "2024-01-01T10:00:00" "2024-02-02T20:00:00" proxyRun1 proxyRun2
    (by rfl) (by rfl)

/-- C2 (amended): the connectivity decision is the same function
`test_proxy_connectivity_robust` at both call sites (new-lease creation
and existing-lease re-validation), and it succeeds exactly when the
configuration is complete and at least ONE of the probes passes — the
2-of-N early exit is only a shortcut, not a required quorum. -/
theorem connectivity_quorum_one (p : Proxy) (outcomes : List Bool) :
    test_proxy_connectivity_robust p outcomes =
      (proxyConfigComplete p && outcomes.any id) :=
  test_robust_eq p outcomes

/-- C2 counterexample: a new lease is committed although exactly one of
the four probes passed, refuting the claim that committing a new lease
requires at least 2 passing probes. -/
theorem new_lease_committed_with_single_probe :
    (oneProbeConn 0).count true = 1 ∧
      ((get_consistent_proxy_for_account cfgW emptyState "3" []
          oneProbeConn geoNone "2024-01-01T00:00:00").1).isSome = true ∧
      (((get_consistent_proxy_for_account cfgW emptyState "3" []
          oneProbeConn geoNone "2024-01-01T00:00:00").2).assignments.lookup "3").isSome = true := by
  refine ⟨by rfl, by rfl, by rfl⟩

/-- C9: the connectivity probe is total by construction (it is a
function into `Bool`; every exception path of the source resolves to
`False` through the enclosing handlers), and for a configuration whose
username, password or endpoint is missing it returns `false` for every
possible probe-outcome vector — in particular independently of the
network, i.e. without treating the failure as a liveness failure. -/
theorem connectivity_invalid_config_false (p : Proxy)
    (h : p.username = "" ∨ p.password = "" ∨ p.endpoint = none) :
    ∀ outcomes : List Bool, test_proxy_connectivity_robust p outcomes = false := by
  intro os
  unfold test_proxy_connectivity_robust
  rcases h with h | h | h
  · simp [h]
  · simp [h]
  · by_cases h1 : p.username = "" <;> by_cases h2 : p.password = "" <;>
      simp [h, h1, h2]

/-- C9 witness: a proxy with a missing endpoint returns `false` even
when every probe would pass. -/
theorem connectivity_invalid_config_false_witness :
    (noEndpointProxy.username = "" ∨ noEndpointProxy.password = "" ∨
      noEndpointProxy.endpoint = none) ∧
      test_proxy_connectivity_robust noEndpointProxy [true, true, true, true] = false :=
  ⟨Or.inr (Or.inr rfl),
    connectivity_invalid_config_false noEndpointProxy (Or.inr (Or.inr rfl))
      [true, true, true, true]⟩

/-- The verifier loop returns the fixed failure dictionary whenever no
response in the list is a parsed US observation. -/
theorem verifyLoop_all_nonUS :
    ∀ l : List (String × GeoResp), (∀ pr ∈ l, geoRespNonUS pr.2 = true) →
      verifyLoop l = ⟨false, none, some "All location services failed"⟩ := by
  intro l
  induction l with
  | nil => intro _; rfl
  | cons hd tl ih =>
    intro hall
    obtain ⟨name, resp⟩ := hd
    cases resp with
    | ok ip c rg ci =>
      have hc : geoRespNonUS (GeoResp.ok ip c rg ci) = true :=
        hall (name, GeoResp.ok ip c rg ci) (by simp)
      simp only [geoRespNonUS, Bool.not_eq_true'] at hc
      simp only [verifyLoop, hc, if_false, Bool.false_eq_true]
      exact ih fun pr hpr => hall pr (by simp [hpr])
    | unreachable => exact ih fun pr hpr => hall pr (by simp [hpr])
    | badStatus code => exact ih fun pr hpr => hall pr (by simp [hpr])
    | malformed => exact ih fun pr hpr => hall pr (by simp [hpr])

/-- C8 (amended): when no geolocation service produces a parsed
observation satisfying the US predicate, the verifier returns the one
fixed failure dictionary `verified=False, error="All location services
failed"` carrying NO observation data — identically whether some
services were reachable with non-US observations or no service was
reachable at all, so the two situations are not distinguishable. -/
theorem verify_unsatisfied_no_data (p : Proxy) (resps : List GeoResp)
    (hu : ¬p.username = "") (hp : ¬p.password = "") (he : ¬p.endpoint = none)
    (hnon : ∀ r ∈ resps, geoRespNonUS r = true) :
    verify_proxy_location_robust p resps =
      ⟨false, none, some "All location services failed"⟩ := by
  unfold verify_proxy_location_robust
  cases hE : p.endpoint with
  | none => exact absurd hE he
  | some e =>
    simp only [hu, hp, if_false, Bool.or_self, decide_eq_true_eq,
      Bool.or_eq_true, decide_eq_true_iff]
    exact verifyLoop_all_nonUS _ fun pr hpr =>
      hnon pr.2 (List.of_mem_zip (by exact hpr)).2

/-- C8 amended witness: one reachable non-US observation yields the
fixed no-data failure result. -/
theorem verify_unsatisfied_no_data_witness :
    (∀ r ∈ [GeoResp.ok "9.9.9.9" "Germany" "Bavaria" "Munich",
        GeoResp.unreachable, GeoResp.unreachable], geoRespNonUS r = true) ∧
      verify_proxy_location_robust validSampleProxy
        [GeoResp.ok "9.9.9.9" "Germany" "Bavaria" "Munich",
         GeoResp.unreachable, GeoResp.unreachable] =
        ⟨false, none, some "All location services failed"⟩ :=
  ⟨by decide,
    verify_unsatisfied_no_data validSampleProxy _
      (by decide) (by decide) (by decide) (by decide)⟩

/-- C8 counterexample: with the first service reachable but observing a
non-US country, the verifier returns a result EQUAL to the one returned
when no service is reachable at all, and that result carries no
observation data — refuting both the claimed inclusion of the last
successful observation and the claimed distinguishable "no data"
marker. -/
theorem verifier_outcomes_indistinguishable :
    verify_proxy_location_robust validSampleProxy
        [GeoResp.ok "9.9.9.9" "Germany" "Bavaria" "Munich",
         GeoResp.unreachable, GeoResp.unreachable] =
      verify_proxy_location_robust validSampleProxy
        [GeoResp.unreachable, GeoResp.unreachable, GeoResp.unreachable] ∧
      (verify_proxy_location_robust validSampleProxy
        [GeoResp.ok "9.9.9.9" "Germany" "Bavaria" "Munich",
         GeoResp.unreachable, GeoResp.unreachable]).data = none ∧
      (verify_proxy_location_robust validSampleProxy
        [GeoResp.ok "9.9.9.9" "Germany" "Bavaria" "Munich",
         GeoResp.unreachable, GeoResp.unreachable]).verified = false := by
  refine ⟨by rfl, by rfl, by rfl⟩

/-- C7: when the tenant has no working stored lease (no entry, or an
entry that fails its connectivity probe) and every probe of every
creation attempt fails — in particular all three configuration tiers
fail connectivity — `get_consistent_proxy_for_account` returns the
explicit failure `none` and leaves the state (assignments AND history)
exactly unchanged: no partial or invalid lease is written. -/
theorem getLease_exhaustion_preserves_store (cfg : SoaxConfig)
    (st : MgrState) (t : String) (existConn : List Bool)
    (connO : Nat → List Bool) (geoO : Nat → List GeoResp) (now : String)
    (hnolive : ∀ a, st.assignments.lookup t = some a →
      test_proxy_connectivity_robust a existConn = false)
    (hfail : ∀ i, (connO i).any id = false) :
    get_consistent_proxy_for_account cfg st t existConn connO geoO now = (none, st) := by
  have hcreate := create_none_of_all_fail cfg reliable_cities t connO geoO now hfail
  unfold get_consistent_proxy_for_account
  cases hl : st.assignments.lookup t with
  | none => simp [assignNewProxy, hcreate]
  | some a => simp [hnolive a hl, assignNewProxy, hcreate]

/-- C7 witness: account 5 holds a stored lease that fails all its
probes, every creation probe fails too, and the call returns `none`
leaving the state untouched. -/
theorem getLease_exhaustion_preserves_store_witness :
    get_consistent_proxy_for_account cfgW stWith5 "5" [false, false, false, false]
      allFailConn geoNone "2024-05-05T00:00:00" = (none, stWith5) :=
  getLease_exhaustion_preserves_store cfgW stWith5 "5"
    [false, false, false, false] allFailConn geoNone "2024-05-05T00:00:00"
    (by
      intro a ha
      have h5 : stWith5.assignments.lookup "5" = some oldProxy5 := rfl
      rw [h5] at ha
      injection ha with h
      rw [← h]
      rfl)
    (fun i => rfl)

/-- C6 (amended): missing/invalid credentials and exhausted candidates
are NOT distinguishable at the `get_consistent_proxy_for_account`
boundary: in both situations the call returns the single failure value
`none` with the state unchanged. -/
theorem getLease_failures_collapse (cfg : SoaxConfig) (st : MgrState)
    (t : String) (existConn : List Bool) (connO : Nat → List Bool)
    (geoO : Nat → List GeoResp) (now : String)
    (hnl : st.assignments.lookup t = none)
    (hfail : validate_soax_credentials cfg = false ∨ ∀ i, (connO i).any id = false) :
    get_consistent_proxy_for_account cfg st t existConn connO geoO now = (none, st) := by
  have hcreate : create_sticky_proxy_for_account_fixed cfg reliable_cities t connO geoO now = none := by
    rcases hfail with h | h
    · exact create_none_of_invalid_creds cfg reliable_cities t connO geoO now h
    · exact create_none_of_all_fail cfg reliable_cities t connO geoO now h
  unfold get_consistent_proxy_for_account
  simp [hnl, assignNewProxy, hcreate]

/-- C6 amended witness: a call with empty credentials resolves to the
failure value `none` with the state unchanged. -/
theorem getLease_failures_collapse_witness :
    validate_soax_credentials cfgBadW = false ∧
      get_consistent_proxy_for_account cfgBadW emptyState "7" [] allFailConn
        geoNone "2024-01-01T00:00:00" = (none, emptyState) :=
  ⟨rfl,
    getLease_failures_collapse cfgBadW emptyState "7" [] allFailConn geoNone
      "2024-01-01T00:00:00" rfl (Or.inl rfl)⟩

/-- C6 counterexample: one call fails because the credentials are
missing (a configuration error) and another fails because every
configuration tier fails connectivity (exhausted candidates), yet the
two calls return EQUAL values — the caller cannot tell "your setup is
wrong" apart from "the resource pool is currently unavailable". -/
theorem error_outcomes_indistinguishable :
    validate_soax_credentials cfgBadW = false ∧
      validate_soax_credentials cfgW = true ∧
      get_consistent_proxy_for_account cfgBadW emptyState "7" [] allFailConn
          geoNone "2024-01-01T00:00:00" =
        get_consistent_proxy_for_account cfgW emptyState "7" [] allFailConn
          geoNone "2024-01-01T00:00:00" ∧
      (get_consistent_proxy_for_account cfgW emptyState "7" [] allFailConn
          geoNone "2024-01-01T00:00:00").1 = none := by
  refine ⟨rfl, rfl, by rfl, by rfl⟩

/-- C10: a tenant id that does not parse as a decimal integer can never
obtain a new lease: when no stored lease passes its probe, the
`ValueError` of `int(account_id)` is swallowed by the enclosing handler
of the creation routine, and `get_consistent_proxy_for_account`
resolves to the failure value `none` storing nothing — for every
credential configuration, probe oracle and clock. -/
theorem getLease_nonnumeric_no_lease (cfg : SoaxConfig) (st : MgrState)
    (t : String) (existConn : List Bool) (connO : Nat → List Bool)
    (geoO : Nat → List GeoResp) (now : String)
    (hparse : pyInt t = none)
    (hnolive : ∀ a, st.assignments.lookup t = some a →
      test_proxy_connectivity_robust a existConn = false) :
    get_consistent_proxy_for_account cfg st t existConn connO geoO now = (none, st) := by
  have hcreate := create_none_of_parse_fail cfg reliable_cities t connO geoO now hparse
  unfold get_consistent_proxy_for_account
  cases hl : st.assignments.lookup t with
  | none => simp [assignNewProxy, hcreate]
  | some a => simp [hnolive a hl, assignNewProxy, hcreate]

/-- C10 witness: tenant id "abc" (not a decimal integer) with no stored
lease: the call fails and stores nothing even though every probe would
pass. -/
theorem getLease_nonnumeric_no_lease_witness :
    pyInt "abc" = none ∧
      get_consistent_proxy_for_account cfgW emptyState "abc" []
        (fun _ => [true, true, true, true]) geoUS "2024-01-01T00:00:00" =
        (none, emptyState) :=
  ⟨rfl,
    getLease_nonnumeric_no_lease cfgW emptyState "abc" []
      (fun _ => [true, true, true, true]) geoUS "2024-01-01T00:00:00" rfl
      (by intro a ha; simp [emptyState, List.lookup] at ha)⟩

/-- C3 (amended): when the stored lease fails its connectivity probe
and a replacement is successfully created (some configuration tier
passes), the call returns the newly created lease and the store now
maps the tenant to that new lease — the old lease has been replaced and
subsequent lookups see only the new one.  (When no replacement can be
created, the old entry remains stored; see the counterexample.) -/
theorem getLease_replaces_dead_lease (cfg : SoaxConfig) (st : MgrState)
    (t : String) (old : Proxy) (existConn : List Bool)
    (connO : Nat → List Bool) (geoO : Nat → List GeoResp) (now : String)
    (np : Proxy)
    (hlk : st.assignments.lookup t = some old)
    (hdead : test_proxy_connectivity_robust old existConn = false)
    (hnew : create_sticky_proxy_for_account_fixed cfg reliable_cities t connO geoO now = some np) :
    (get_consistent_proxy_for_account cfg st t existConn connO geoO now).1 = some np ∧
      ((get_consistent_proxy_for_account cfg st t existConn connO geoO now).2).assignments.lookup t = some np := by
  unfold get_consistent_proxy_for_account
  simp only [hlk, hdead, Bool.false_eq_true, if_false, assignNewProxy, hnew]
  exact ⟨trivial, lookup_insertA_self _ _ _⟩

/-- C3 amended witness: the dead stored lease of account 5 is replaced
by a fresh Tier-2 lease, which is both returned and stored. -/
theorem getLease_replaces_dead_lease_witness :
    (get_consistent_proxy_for_account cfgW stWith5 "5" [false, false, false, false]
        oneProbeConn geoNone "2024-03-03T00:00:00").1 = some newProxy5 ∧
      ((get_consistent_proxy_for_account cfgW stWith5 "5" [false, false, false, false]
        oneProbeConn geoNone "2024-03-03T00:00:00").2).assignments.lookup "5" = some newProxy5 :=
  getLease_replaces_dead_lease cfgW stWith5 "5" oldProxy5
    [false, false, false, false] oneProbeConn geoNone "2024-03-03T00:00:00"
    newProxy5 (by rfl) (by rfl) (by rfl)

/-- C3 counterexample: account 5 holds a stored lease; during one call
the lease fails its connectivity probe, but because no replacement can
be created the stored lease is NOT discarded — the state is unchanged
and still holds it — and a later call in which the old lease passes its
probe returns the OLD lease again, refuting the claim that a failed
lease is discarded and never returned on subsequent calls. -/
theorem stale_lease_returned_counterexample :
    test_proxy_connectivity_robust oldProxy5 [false, false, false, false] = false ∧
      get_consistent_proxy_for_account cfgW stWith5 "5" [false, false, false, false]
          allFailConn geoNone "2024-02-01T00:00:00" = (none, stWith5) ∧
      (get_consistent_proxy_for_account cfgW stWith5 "5" [true, false, false, false]
          allFailConn geoNone "2024-02-02T00:00:00").1 = some oldProxy5 := by
  refine ⟨by rfl, by rfl, by rfl⟩

/-- Pushing one record onto the last fifty of a list keeps exactly the
last fifty of the extended list. -/
theorem ledgerPush_lastFifty (xs : List UsageRecord) (r : UsageRecord) :
    ledgerPush (lastFifty xs) r = lastFifty (xs ++ [r]) := by
  unfold ledgerPush lastFifty
  have hlen : (xs.drop (xs.length - 50)).length = xs.length - (xs.length - 50) :=
    List.length_drop _ _
  have hlen2 : (xs ++ [r]).length = xs.length + 1 := by simp
  by_cases h : xs.length ≤ 50
  · have h0 : xs.length - 50 = 0 := by omega
    rw [h0, List.drop_zero]
    by_cases h51 : 50 < (xs ++ [r]).length
    · rw [if_pos (by rw [hlen2]; omega)]
    · rw [if_neg (by omega), hlen2]
      have : xs.length + 1 - 50 = 0 := by omega
      rw [this, List.drop_zero]
  · have hgt : 50 < xs.length := by omega
    have hL : (xs.drop (xs.length - 50) ++ [r]).length = 51 := by
      simp [hlen]
      omega
    rw [if_pos (by omega), hL]
    have h1le : (1 : Nat) ≤ (xs.drop (xs.length - 50)).length := by omega
    rw [List.drop_append_of_le_length h1le, List.drop_drop, hlen2,
      List.drop_append_of_le_length (by omega : xs.length + 1 - 50 ≤ xs.length)]
    have : xs.length - 50 + 1 = xs.length + 1 - 50 := by omega
    rw [this]

/-- Folding pushes over the last fifty of a prefix gives the last fifty
of the whole sequence. -/
theorem foldl_ledgerPush_lastFifty (rs : List UsageRecord) :
    ∀ xs : List UsageRecord,
      rs.foldl ledgerPush (lastFifty xs) = lastFifty (xs ++ rs) := by
  induction rs with
  | nil => intro xs; simp
  | cons r rest ih =>
    intro xs
    rw [List.foldl_cons, ledgerPush_lastFifty, ih (xs ++ [r])]
    simp

/-- Inserting under one key leaves lookups of other keys unchanged. -/
theorem lookup_insertA_other {α : Type} (l : List (String × α)) (k k' : String)
    (v : α) (h : ¬k = k') : (insertA l k v).lookup k' = l.lookup k' := by
  have hne : (k' == k) = false := by
    simp only [beq_eq_false_iff_ne, ne_eq]
    exact fun he => h he.symm
  induction l with
  | nil => simp [insertA, List.lookup, hne]
  | cons hd tl ih =>
    obtain ⟨k0, v0⟩ := hd
    by_cases h0 : k0 = k
    · subst h0
      simp [insertA, List.lookup, hne]
    · simp [insertA, if_neg h0, List.lookup, ih]

/-- Logging usage for one tenant leaves every other tenant's ledger
unchanged. -/
theorem histOf_log_other (st : MgrState) (t' t : String) (p : Proxy)
    (now : String) (h : ¬t' = t) :
    histOf (log_location_usage st t' p now) t = histOf st t := by
  simp [log_location_usage, histOf, lookup_insertA_other _ _ _ _ h]

/-- The per-tenant ledger after any interleaved sequence of
usage-logging calls is the fold of pushes of that tenant's own records
over the starting ledger. -/
theorem histOf_foldl_log (calls : List (String × Proxy × String)) :
    ∀ (st : MgrState) (t : String),
      histOf (calls.foldl (fun s c => log_location_usage s c.1 c.2.1 c.2.2) st) t =
        (tenantRecords calls t).foldl ledgerPush (histOf st t) := by
  induction calls with
  | nil => intro st t; rfl
  | cons c rest ih =>
    intro st t
    rw [List.foldl_cons]
    by_cases h : c.1 = t
    · have hb : (c.1 == t) = true := by simp [h]
      have ht : tenantRecords (c :: rest) t =
          mkUsageRecord c.2.1 c.2.2 :: tenantRecords rest t := by
        simp [tenantRecords, List.filter_cons, hb]
      rw [ht, List.foldl_cons, ih, ← h, histOf_log]
    · have hb : (c.1 == t) = false := by simp [h]
      have ht : tenantRecords (c :: rest) t = tenantRecords rest t := by
        simp [tenantRecords, List.filter_cons, hb]
      rw [ht, ih, histOf_log_other _ _ _ _ _ h]

/-- C4: starting from the empty state, after ANY interleaved sequence
of usage-logging calls, each tenant's ledger equals exactly that
tenant's own appended records with the oldest dropped beyond the cap of
50 (FIFO eviction, most recent retained in insertion order), and its
length is `min n 50` where `n` is the number of records appended for
that tenant; in particular appending 60 records leaves exactly the 50
most recent. -/
theorem ledger_bounded_fifo (calls : List (String × Proxy × String)) (t : String) :
    histOf (runUsageLog calls) t =
        (tenantRecords calls t).drop ((tenantRecords calls t).length - 50) ∧
      (histOf (runUsageLog calls) t).length = min (tenantRecords calls t).length 50 := by
  have hbase : histOf emptyState t = lastFifty ([] : List UsageRecord) := rfl
  have hmain : histOf (runUsageLog calls) t = lastFifty (tenantRecords calls t) := by
    rw [runUsageLog, histOf_foldl_log, hbase, foldl_ledgerPush_lastFifty,
      List.nil_append]
  refine ⟨hmain, ?_⟩
  rw [hmain]
  unfold lastFifty
  rw [List.length_drop]
  omega

/-- The keys of the grouping dictionary after one insertion: unchanged
when the key is already present, extended at the end otherwise. -/
theorem addTimestamp_keys (locs : List (String × List String)) (k ts : String) :
    (addTimestamp locs k ts).map Prod.fst =
      if k ∈ locs.map Prod.fst then locs.map Prod.fst
      else locs.map Prod.fst ++ [k] := by
  induction locs with
  | nil => simp [addTimestamp]
  | cons hd tl ih =>
    obtain ⟨k', l⟩ := hd
    by_cases h : k' = k
    · subst h
      simp [addTimestamp]
    · simp only [addTimestamp, if_neg h, List.map_cons, ih]
      by_cases hm : k ∈ tl.map Prod.fst
      · simp [hm, Ne.symm h]
      · simp [hm, Ne.symm h]

/-- The grouping fold keeps its keys duplicate-free and collects exactly
the location keys of the processed records (together with any starting
keys). -/
theorem collectAux (hist : List UsageRecord) :
    ∀ locs : List (String × List String), (locs.map Prod.fst).Nodup →
      ((hist.foldl (fun a r => addTimestamp a (locKey r) r.timestamp) locs).map Prod.fst).Nodup ∧
      ∀ k, (k ∈ (hist.foldl (fun a r => addTimestamp a (locKey r) r.timestamp) locs).map Prod.fst ↔
        k ∈ locs.map Prod.fst ∨ k ∈ hist.map locKey) := by
  induction hist with
  | nil =>
    intro locs hnd
    exact ⟨hnd, fun k => by simp⟩
  | cons r rest ih =>
    intro locs hnd
    rw [List.foldl_cons]
    have hkeys := addTimestamp_keys locs (locKey r) r.timestamp
    have hnd' : ((addTimestamp locs (locKey r) r.timestamp).map Prod.fst).Nodup := by
      rw [hkeys]
      by_cases hm : locKey r ∈ locs.map Prod.fst
      · simpa [hm] using hnd
      · simp only [if_neg hm]
        rw [List.nodup_append]
        exact ⟨hnd, List.nodup_singleton _, by
          intro a ha hb
          simp at hb
          subst hb
          exact hm ha⟩
    obtain ⟨h1, h2⟩ := ih (addTimestamp locs (locKey r) r.timestamp) hnd'
    refine ⟨h1, fun k => ?_⟩
    rw [h2 k, hkeys]
    by_cases hm : locKey r ∈ locs.map Prod.fst
    · simp only [if_pos hm, List.map_cons, List.mem_cons]
      constructor
      · rintro (hk | hk)
        · exact Or.inl hk
        · exact Or.inr (Or.inr hk)
      · rintro (hk | hk | hk)
        · exact Or.inl hk
        · subst hk; exact Or.inl hm
        · exact Or.inr hk
    · simp only [if_neg hm, List.mem_append, List.mem_singleton, List.map_cons,
        List.mem_cons]
      tauto

/-- C5 (amended): the consistency report's risk is computed from the
number of distinct (city, region) combinations over the tenant's ENTIRE
stored ledger — not over a recent window: more than 2 distinct
combinations yield HIGH, exactly 1 yields LOW, and any other count
(including 2) yields MEDIUM.  The reported distinct-location count is
genuinely the number of distinct location keys of the whole history:
the grouping keys are duplicate-free and contain exactly the location
keys occurring in the history. -/
theorem report_risk_full_history (st : MgrState) (t : String)
    (hist : List UsageRecord) (h : st.history.lookup t = some hist) :
    get_account_location_report st t =
      ReportResult.ok hist.length (collectLocations hist).length
        (if 2 < (collectLocations hist).length then Risk.HIGH
         else if (collectLocations hist).length = 1 then Risk.LOW
         else Risk.MEDIUM) ∧
      ((collectLocations hist).map Prod.fst).Nodup ∧
      ∀ k, (k ∈ (collectLocations hist).map Prod.fst ↔ k ∈ hist.map locKey) := by
  obtain ⟨h1, h2⟩ := collectAux hist [] (by simp)
  refine ⟨?_, h1, fun k => ?_⟩
  · unfold get_account_location_report
    rw [h]
  · rw [collectLocations, h2 k]
    simp

/-- C5 amended witness: the report over `hist6` (two distinct locations
over the whole history) is MEDIUM with duplicate-free keys. -/
theorem report_risk_full_history_witness :
    get_account_location_report stHist6 "9" =
      ReportResult.ok hist6.length (collectLocations hist6).length
        (if 2 < (collectLocations hist6).length then Risk.HIGH
         else if (collectLocations hist6).length = 1 then Risk.LOW
         else Risk.MEDIUM) ∧
      ((collectLocations hist6).map Prod.fst).Nodup ∧
      ∀ k, (k ∈ (collectLocations hist6).map Prod.fst ↔ k ∈ hist6.map locKey) :=
  report_risk_full_history stHist6 "9" hist6 (by rfl)

/-- C5 counterexample: a six-record history whose last five records
share a single (city, region) combination — so the claimed window rule
would classify the risk as LOW — is classified MEDIUM by
`get_account_location_report`, because the code counts distinct
combinations over the whole history (two here), not over the last 5. -/
theorem risk_window_counterexample :
    recentDistinctLocations hist6 = 1 ∧
      riskOfReport (get_account_location_report stHist6 "9") = some Risk.MEDIUM ∧
      ¬riskOfReport (get_account_location_report stHist6 "9") = some Risk.LOW := by
  refine ⟨by rfl, by rfl, by decide⟩

end StickyProxy
